import Mathlib

/-!
Shallow embedding of the scraper-facing core of `routes/api.js`
(the toktok-view-pro repository).

The repository's `routes/api.js` contains three successive revisions of the
same module concatenated (revision 1: lines 1-354; revision 2: lines 356-746;
revision 3: lines 747-1204).  The normalizers `mapVideos` / `mapProfile` are
(up to formatting) identical across the three revisions; the gateway
`runScraper` exists in two behaviourally distinct forms:
  - revision 1 (lines 43-97): no validation of an empty upstream result;
  - revisions 2/3 (lines 398-480 and 831-897): an empty item sequence is
    turned into a thrown not-found error before the cache write, while an
    absent one throws a host `TypeError` at the preceding `items.length`
    log read.
We embed both: `runScraper` (revision 1) and `runScraperEnhanced`
(revision 3, whose try-block validation and catch-block classification are
those shared by revisions 2 and 3).

JavaScript dynamics are embedded explicitly:
  - an optional / possibly-`undefined` field is an `Option`;
  - JS truthiness of a string (`"" ` is falsy) and of a number (`0` is
    falsy) is spelled out in `strTruthy` / `intTruthy`, and `a || b`
    becomes `jsOrS` / `jsOrI` / `orStr` / `orInt` / `orBool`;
  - `Date.now()` is an explicit `now : Int` parameter;
  - a code path that throws a `TypeError` at run time (calling `.map` on a
    non-array, reading `.name` of `null`) is an `Except.error`;
  - the module-level `cache` Map is explicit state, passed in and returned.
-/

namespace TokTok

/-- JS truthiness of an optional string field: `undefined` and `""` are falsy. -/
def strTruthy : Option String → Bool
  | none => false
  | some s => s ≠ ""

/-- JS truthiness of an optional numeric field: `undefined` and `0` are falsy. -/
def intTruthy : Option Int → Bool
  | none => false
  | some n => n ≠ 0

/-- JS `a || b` on two optional string fields (first truthy operand wins). -/
def jsOrS : Option String → Option String → Option String
  | some s, b => if s = "" then b else some s
  | none, b => b

/-- JS `a || b` on two optional numeric fields (first truthy operand wins). -/
def jsOrI : Option Int → Option Int → Option Int
  | some n, b => if n = 0 then b else some n
  | none, b => b

/-- JS `a || d` with a string default. -/
def orStr : Option String → String → String
  | some s, d => if s = "" then d else s
  | none, d => d

/-- JS `a || d` with a numeric default. -/
def orInt : Option Int → Int → Int
  | some n, d => if n = 0 then d else n
  | none, d => d

/-- JS `a || d` with a boolean default. -/
def orBool : Option Bool → Bool → Bool
  | some b, d => b || d
  | none, d => d

/-- JS string interpolation of a possibly-`undefined` value:
`` `${undefined}` `` renders as `"undefined"`. -/
def jsShow : Option String → String
  | none => "undefined"
  | some s => s

/-- `pat` is a prefix of `s` (on character lists). -/
def listPrefixOf : List Char → List Char → Bool
  | [], _ => true
  | _ :: _, [] => false
  | a :: as, b :: bs => a = b && listPrefixOf as bs

/-- `pat` occurs somewhere inside `s` (on character lists). -/
def listInfixOf (pat : List Char) : List Char → Bool
  | [] => listPrefixOf pat []
  | c :: rest => listPrefixOf pat (c :: rest) || listInfixOf pat rest

/-- JS `s.includes(pat)`: `pat` is a substring of `s`. -/
def containsStr (s pat : String) : Bool :=
  listInfixOf pat.toList s.toList

/-- JS `s.trim()`: strip whitespace from both ends. -/
def jsTrim (s : String) : String :=
  ⟨(((s.toList.dropWhile Char.isWhitespace).reverse.dropWhile
      Char.isWhitespace).reverse)⟩

/-- The `authorMeta` substructure of a raw scraped item.  Every field the
source reads is optional; a field that is absent in the JSON is `none`. -/
structure AuthorMeta where
  name : Option String := none
  nickName : Option String := none
  avatar : Option String := none
  signature : Option String := none
  followers : Option Int := none
  followerCount : Option Int := none
  following : Option Int := none
  followingCount : Option Int := none
  heart : Option Int := none
  diggCount : Option Int := none
  verified : Option Bool := none
  privateAccount : Option Bool := none
  deriving Repr, DecidableEq

/-- The `musicMeta` substructure of a raw scraped item. -/
structure MusicMeta where
  musicName : Option String := none
  musicOriginal : Option Bool := none
  deriving Repr, DecidableEq

/-- One entry of a raw item's `hashtags` array.  `jnull` is a `null` or
`undefined` entry: reading `.name` of it throws a `TypeError` in the source
(`item.hashtags?.map((h) => h.name)`).  `obj` is an object entry whose
`name` field may be absent or empty. -/
inductive HtagEntry where
  | jnull
  | obj (name : Option String)
  deriving Repr, DecidableEq

/-- The value of a raw item's `hashtags` field when it is not
`null`/`undefined` (the `?.` guard only covers nullish values):
either a JS array of entries, or any other value, on which the
source's `.map(...)` call throws a `TypeError`. -/
inductive HtagsVal where
  | arr (entries : List HtagEntry)
  | nonArray
  deriving Repr, DecidableEq

/-- A raw item as returned by the external scraper.  Only the fields the
source reads are modelled; each is optional (`none` = absent/nullish). -/
structure RawItem where
  id : Option String := none
  authorMeta : Option AuthorMeta := none
  text : Option String := none
  musicMeta : Option MusicMeta := none
  diggCount : Option Int := none
  commentCount : Option Int := none
  shareCount : Option Int := none
  playCount : Option Int := none
  hashtags : Option HtagsVal := none
  webVideoUrl : Option String := none
  createTime : Option Int := none
  deriving Repr, DecidableEq

/-- The normalized creator sub-object built by `mapVideos`. -/
structure Creator where
  username : String
  avatar : String
  deriving Repr, DecidableEq

/-- The normalized video object built by `mapVideos`.  `id` keeps the raw
item's dynamic `id` value (the source copies `item.id` unchanged). -/
structure Video where
  id : Option String
  creator : Creator
  description : String
  soundtrack : String
  likes : Int
  comments : Int
  shares : Int
  plays : Int
  hashtags : List String
  videoUrl : String
  createdAt : Int
  deriving Repr, DecidableEq

/-- The normalized profile object built by `mapProfile`.  `username` has no
default in the source (`authorMeta.name || authorMeta.nickName`), so it may
be `undefined` (`none`).  The source's `private` field is `isPrivate` here
(`private` is reserved in Lean). -/
structure Profile where
  username : Option String
  bio : String
  followers : Int
  following : Int
  likes : Int
  avatar : String
  verified : Bool
  isPrivate : Bool
  deriving Repr, DecidableEq

/-- The placeholder avatar URL used by both normalizers. -/
def placeholderAvatar : String :=
  "https://via.placeholder.com/150/1a1a1a/ffffff?text=TK"

/-- JS `Array.prototype.map` with a callback that may throw: elements are
processed left to right and the first throw aborts the whole call. -/
def mapMExc {α β : Type} (f : α → Except Unit β) : List α → Except Unit (List β)
  | [] => .ok []
  | x :: xs => do
      let y ← f x
      let ys ← mapMExc f xs
      .ok (y :: ys)

/-- Decidable equality for `Except` results. -/
instance {ε α : Type} [DecidableEq ε] [DecidableEq α] : DecidableEq (Except ε α)
  | .ok a, .ok b =>
      if h : a = b then .isTrue (by rw [h]) else .isFalse (by simp [h])
  | .ok _, .error _ => .isFalse (by simp)
  | .error _, .ok _ => .isFalse (by simp)
  | .error a, .error b =>
      if h : a = b then .isTrue (by rw [h]) else .isFalse (by simp [h])

/-- `item.hashtags?.map((h) => h.name).filter(Boolean) || []`:
nullish `hashtags` short-circuits to `undefined`, hence `[]`;
a non-array value throws (`.map` is not a function);
a `null` array entry throws (reading `.name` of `null`);
otherwise the entries' `name` fields are taken and falsy names dropped. -/
def extractHashtags : Option HtagsVal → Except Unit (List String)
  | none => .ok []
  | some (.arr es) =>
      match mapMExc (fun e =>
        match e with
        | .jnull => (.error () : Except Unit (Option String))
        | .obj name => .ok name) es with
      | .error e => .error e
      | .ok names =>
          .ok (names.filterMap (fun n =>
            match n with
            | some s => if s = "" then none else some s
            | none => none))
  | some .nonArray => .error ()

/-- The body of the `.map` in `mapVideos`, for one raw item that survived the
`item && item.id` filter.  `now` is `Date.now()`. -/
def mapVideoItem (item : RawItem) (now : Int) : Except Unit Video :=
  match extractHashtags item.hashtags with
  | .error e => .error e
  | .ok tags =>
  .ok
    { id := item.id
      creator :=
        { username :=
            orStr (jsOrS (item.authorMeta.bind (·.name))
                         (item.authorMeta.bind (·.nickName))) "unknown"
          avatar := orStr (item.authorMeta.bind (·.avatar)) placeholderAvatar }
      description := orStr item.text "No description available"
      soundtrack :=
        orStr (item.musicMeta.bind (·.musicName))
          (if (item.musicMeta.bind (·.musicOriginal)).getD false then
            "Original Sound"
          else "No sound information")
      likes := orInt item.diggCount 0
      comments := orInt item.commentCount 0
      shares := orInt item.shareCount 0
      plays := orInt item.playCount 0
      hashtags := tags
      videoUrl :=
        orStr item.webVideoUrl
          ("https://www.tiktok.com/@" ++
            jsShow (item.authorMeta.bind (·.name)) ++ "/video/" ++
            jsShow item.id)
      createdAt := orInt item.createTime now }

/-- The argument passed to `mapVideos`: `absent` is any falsy value
(`undefined`, `null`, ...), `notArray` any truthy non-array, `arr` a JS
array whose entries may themselves be `null` (`none`). -/
inductive ItemsArg where
  | absent
  | notArray
  | arr (items : List (Option RawItem))
  deriving Repr, DecidableEq

/-- The first filter of `mapVideos`: `.filter((item) => item && item.id)`
(`null` entries and entries with a falsy `id` are dropped). -/
def keptItems (items : List (Option RawItem)) : List RawItem :=
  items.filterMap (fun o =>
    match o with
    | none => none
    | some it => if strTruthy it.id then some it else none)

/-- `mapVideos(items)` of the source (identical in all three revisions):
guard `!items || !Array.isArray(items)`, then
`.filter((item) => item && item.id)`, then the `.map`, then
`.filter((video) => video.id)`.  A `TypeError` thrown inside the `.map`
is `Except.error ()`. -/
def mapVideos (arg : ItemsArg) (now : Int) : Except Unit (List Video) :=
  match arg with
  | .absent => .ok []
  | .notArray => .ok []
  | .arr items =>
      match mapMExc (fun it => mapVideoItem it now) (keptItems items) with
      | .error e => .error e
      | .ok mapped => .ok (mapped.filter (fun v => strTruthy v.id))

/-- `mapProfile(authorMeta)` of the source (identical in all three
revisions): falsy input yields `null`; otherwise each field is filled with
the first truthy candidate, with the documented defaults. -/
def mapProfile : Option AuthorMeta → Option Profile
  | none => none
  | some am =>
      some
        { username := jsOrS am.name am.nickName
          bio := orStr am.signature "No bio available"
          followers := orInt (jsOrI am.followers am.followerCount) 0
          following := orInt (jsOrI am.following am.followingCount) 0
          likes := orInt (jsOrI am.heart am.diggCount) 0
          avatar := orStr am.avatar placeholderAvatar
          verified := orBool am.verified false
          isPrivate := orBool am.privateAccount false }

/-- One cache entry: `{ data: items, timestamp: Date.now() }`.  `data` keeps
the raw value stored by the source, which is whatever destructuring
`const { items } = await ...listItems()` produced — possibly `undefined`
(`none`), otherwise an array of (possibly `null`) raw items. -/
structure CacheEntry where
  data : Option (List (Option RawItem))
  timestamp : Int
  deriving Repr, DecidableEq

/-- The module-level `cache` Map, as an association list (later bindings
shadow nothing: `cacheSet` replaces). -/
def Cache := List (String × CacheEntry)

instance : DecidableEq Cache := by
  unfold Cache
  infer_instance

/-- `cache.get(k)` combined with `cache.has(k)`. -/
def cacheGet (c : Cache) (k : String) : Option CacheEntry :=
  match c with
  | [] => none
  | (k', e) :: rest => if k' = k then some e else cacheGet rest k

/-- `cache.set(k, e)` (overwrite semantics of a JS Map). -/
def cacheSet (c : Cache) (k : String) (e : CacheEntry) : Cache :=
  match c with
  | [] => [(k, e)]
  | (k', e') :: rest =>
      if k' = k then (k, e) :: rest else (k', e') :: cacheSet rest k e

/-- `CACHE_DURATION = 5 * 60 * 1000` (5 minutes, in milliseconds). -/
def CACHE_DURATION : Int := 5 * 60 * 1000

/-- The environment revision 1's `runScraper` consults: the
`APIFY_API_KEY` variable (`none` = unset) and whether the module-level
`client` was successfully constructed. -/
structure Env where
  apifyToken : Option String
  clientInitialized : Bool
  deriving DecidableEq

/-- `!APIFY_TOKEN || APIFY_TOKEN === "your_actual_apify_api_key_here"`. -/
def tokenMissing : Option String → Bool
  | none => true
  | some s => s = "" || s = "your_actual_apify_api_key_here"

/-- Outcome of the external scraper round trip
(`client.actor(...).call(input)` followed by
`client.dataset(...).listItems()`): either the destructured `items`
value (possibly `undefined`), or a thrown error with its message. -/
inductive UpstreamOutcome where
  | success (items : Option (List (Option RawItem)))
  | failure (msg : String)

/-- Result of one gateway call: the returned items or the thrown error's
message, the cache state after the call, and whether the upstream fetch
path was entered (false when the call was answered from the cache or
rejected before it). -/
structure GwOut where
  result : Except String (Option (List (Option RawItem)))
  cache : Cache
  upstreamCalled : Bool
  deriving DecidableEq

/-- The catch-block classification of revision 1's `runScraper`
(lines 79-96). -/
def classifyV1 (msg : String) : String :=
  if containsStr msg "invalid token" || containsStr msg "unauthorized" then
    "Invalid Apify API key. Please check your environment variables."
  else if containsStr msg "rate limit" then
    "API rate limit exceeded. Please try again later."
  else
    "Failed to fetch data: " ++ msg

/-- The try-block of revision 1's `runScraper` (lines 64-97): fetch, cache
the result unconditionally (no emptiness validation), return it; on an
upstream throw, classify the message. -/
def fetchV1 (upstream : UpstreamOutcome) (now : Int)
    (cacheKey : Option String) (cache : Cache) : GwOut :=
  match upstream with
  | .success items =>
      let cache' :=
        match cacheKey with
        | some k => cacheSet cache k ⟨items, now⟩
        | none => cache
      ⟨.ok items, cache', true⟩
  | .failure msg => ⟨.error (classifyV1 msg), cache, true⟩

/-- Revision 1's `runScraper(input, cacheKey)` (lines 43-97).  The scraper
`input` payload is opaque to the gateway's own logic and is represented by
the `upstream` outcome it would produce; `now` is `Date.now()`. -/
def runScraper (env : Env) (upstream : UpstreamOutcome) (now : Int)
    (cacheKey : Option String) (cache : Cache) : GwOut :=
  if tokenMissing env.apifyToken then
    ⟨.error
      "Apify API key not configured. Please set APIFY_API_KEY environment variable.",
      cache, false⟩
  else if !env.clientInitialized then
    ⟨.error "Apify client not initialized", cache, false⟩
  else
    match cacheKey with
    | some k =>
        match cacheGet cache k with
        | some entry =>
            if now - entry.timestamp < CACHE_DURATION then
              ⟨.ok entry.data, cache, false⟩
            else fetchV1 upstream now cacheKey cache
        | none => fetchV1 upstream now cacheKey cache
    | none => fetchV1 upstream now cacheKey cache

/-- The module-level `apiStatus` record of revision 3 (lines 763-768),
as far as `runScraper` reads it. -/
structure ApiStatus where
  valid : Bool
  message : String
  deriving DecidableEq

/-- The message thrown by revisions 2/3 when the upstream item sequence is
empty (lines 859-865): the username detail is included when a username was
supplied.  (An *absent* sequence never reaches this throw: the preceding
log line already reads `items.length`, see `undefinedLengthTypeErrorMsg`.) -/
def emptyItemsMsg : Option String → String
  | some u => "User @" ++ u ++ " not found, account is private, or has no public videos."
  | none => "No content found for this search. Try a different query."

/-- The host runtime's `TypeError` message for reading `.length` of
`undefined`: in revisions 2/3 the log line
`` console.log(`✅ Received ${items.length} items from Apify`) ``
(lines 434 and 857) runs *before* the `!items || items.length === 0`
validation, so an absent `items` throws this `TypeError` there.  The exact
wording is host-defined, not chosen by the source; this is the text V8
(the engine Node.js runs on) produces. -/
def undefinedLengthTypeErrorMsg : String :=
  "Cannot read properties of undefined (reading 'length')"

/-- The catch-block classification of revision 3's `runScraper`
(lines 877-896); the `not found` branch fires only for a truthy
`username`. -/
def classifyEnhanced (msg : String) (username : Option String) : String :=
  if containsStr msg "invalid token" || containsStr msg "authentication" ||
      containsStr msg "unauthorized" then
    "Invalid Apify API token. Please check your API key configuration in Vercel environment variables."
  else if containsStr msg "rate limit" then
    "API rate limit exceeded. Please try again in a few minutes."
  else if containsStr msg "not found" && strTruthy username then
    "User @" ++ jsShow username ++ " not found. Please check the username and try again."
  else
    "Failed to fetch data: " ++ msg

/-- The try-block of revision 3's `runScraper` (lines 850-897): fetch;
when `items` is absent the log line's `items.length` read throws a host
`TypeError` before the validation is reached; an empty item sequence is
turned into the deliberate not-found throw; each thrown message then runs
through the same catch-block classification; otherwise cache and return;
an upstream throw is classified likewise. -/
def fetchEnhanced (upstream : UpstreamOutcome) (now : Int)
    (cacheKey : Option String) (username : Option String)
    (cache : Cache) : GwOut :=
  match upstream with
  | .success items =>
      match items with
      | none =>
          ⟨.error (classifyEnhanced undefinedLengthTypeErrorMsg username), cache, true⟩
      | some l =>
          if l.length = 0 then
            ⟨.error (classifyEnhanced (emptyItemsMsg username) username), cache, true⟩
          else
            let cache' :=
              match cacheKey with
              | some k => cacheSet cache k ⟨some l, now⟩
              | none => cache
            ⟨.ok (some l), cache', true⟩
  | .failure msg => ⟨.error (classifyEnhanced msg username), cache, true⟩

/-- Revision 3's `runScraper(input, cacheKey, username)` (lines 831-897).
Revision 2 (lines 398-480) behaves identically on the paths modelled here
(it additionally probes `client.user().get()` before the fetch, a path that
only matters when that probe itself fails). -/
def runScraperEnhanced (status : ApiStatus) (clientAvailable : Bool)
    (upstream : UpstreamOutcome) (now : Int) (cacheKey : Option String)
    (username : Option String) (cache : Cache) : GwOut :=
  if !status.valid then
    ⟨.error ("API configuration error: " ++ status.message), cache, false⟩
  else if !clientAvailable then
    ⟨.error "Apify client not available. Please check server configuration.", cache, false⟩
  else
    match cacheKey with
    | some k =>
        match cacheGet cache k with
        | some entry =>
            if now - entry.timestamp < CACHE_DURATION then
              ⟨.ok entry.data, cache, false⟩
            else fetchEnhanced upstream now cacheKey username cache
        | none => fetchEnhanced upstream now cacheKey username cache
    | none => fetchEnhanced upstream now cacheKey username cache

/-- The JSON response a route handler produces (only the shapes the
modelled routes use).  `serverError` is the catch-block's 500 response;
`typeErrorResponse` stands for the 500 response whose `error` field is the
runtime's own `TypeError` message (a host-defined string the source does
not choose). -/
inductive RouteOut where
  | badRequest (error : String)
  | notFound (error : String)
  | serverError (error : String)
  | typeErrorResponse
  | okVideos (data : List Video) (count : Nat)
  | okProfile (profile : Option Profile) (videos : List Video) (videoCount : Nat)
  deriving DecidableEq

/-- Result of one route-handler call: the response, the cache state after
the call, and whether `runScraper` was invoked. -/
structure RouteResult where
  response : RouteOut
  cache : Cache
  gatewayInvoked : Bool
  deriving DecidableEq

/-- `router.get("/hashtag/:tag")` of revision 1 (lines 198-233): length
validation, then `runScraper(input, "hashtag_" + tag)`, then `mapVideos`. -/
def hashtagRoute (env : Env) (upstream : UpstreamOutcome) (now : Int)
    (tag : String) (cache : Cache) : RouteResult :=
  if tag = "" ∨ tag.length < 2 then
    ⟨.badRequest "Hashtag must be at least 2 characters", cache, false⟩
  else
    let gw := runScraper env upstream now (some ("hashtag_" ++ tag)) cache
    match gw.result with
    | .error msg => ⟨.serverError msg, gw.cache, true⟩
    | .ok items =>
        match mapVideos (match items with
                         | none => .absent
                         | some l => .arr l) now with
        | .error _ => ⟨.typeErrorResponse, gw.cache, true⟩
        | .ok videos => ⟨.okVideos videos videos.length, gw.cache, true⟩

/-- `router.get("/profile/:username")` of revision 1 (lines 236-280):
length validation, `runScraper(input, "profile_" + username)`, the
`!items || items.length === 0` 404 guard, then
`mapProfile(items[0].authorMeta)` and `mapVideos(items)`.
Reading `.authorMeta` of a `null` first item throws a `TypeError`. -/
def profileRoute (env : Env) (upstream : UpstreamOutcome) (now : Int)
    (username : String) (cache : Cache) : RouteResult :=
  if username = "" ∨ username.length < 2 then
    ⟨.badRequest "Username must be at least 2 characters", cache, false⟩
  else
    let gw := runScraper env upstream now (some ("profile_" ++ username)) cache
    match gw.result with
    | .error msg => ⟨.serverError msg, gw.cache, true⟩
    | .ok items =>
        match items with
        | none =>
            ⟨.notFound ("Profile @" ++ username ++ " not found or has no public videos"),
              gw.cache, true⟩
        | some l =>
            match l with
            | [] =>
                ⟨.notFound ("Profile @" ++ username ++ " not found or has no public videos"),
                  gw.cache, true⟩
            | firstItem :: _ =>
                match firstItem with
                | none => ⟨.typeErrorResponse, gw.cache, true⟩
                | some it =>
                    match mapVideos (.arr l) now with
                    | .error _ => ⟨.typeErrorResponse, gw.cache, true⟩
                    | .ok videos =>
                        ⟨.okProfile (mapProfile it.authorMeta) videos videos.length,
                          gw.cache, true⟩

/-- The cache key revision 1's search route derives from the trimmed query
(lines 294-321). -/
def searchCacheKey (query : String) : String :=
  if query.startsWith "#" then "search_hashtag_" ++ query.drop 1
  else if query.startsWith "@" then "search_profile_" ++ query.drop 1
  else "search_keyword_" ++ query

/-- `router.get("/search")` of revision 1 (lines 283-342):
`(req.query.q || "").trim()`, empty-query validation, prefix
classification into a cache key, `runScraper`, `mapVideos`. -/
def searchRoute (env : Env) (upstream : UpstreamOutcome) (now : Int)
    (q : Option String) (cache : Cache) : RouteResult :=
  let query := jsTrim (orStr q "")
  if query = "" then
    ⟨.badRequest "Search query is required", cache, false⟩
  else
    let gw := runScraper env upstream now (some (searchCacheKey query)) cache
    match gw.result with
    | .error msg => ⟨.serverError msg, gw.cache, true⟩
    | .ok items =>
        match mapVideos (match items with
                         | none => .absent
                         | some l => .arr l) now with
        | .error _ => ⟨.typeErrorResponse, gw.cache, true⟩
        | .ok videos => ⟨.okVideos videos videos.length, gw.cache, true⟩

/-! Shared lemmas about the embedding's building blocks. -/

/-- If the callback succeeds on every element, the whole `mapMExc` succeeds,
with an output of the same length. -/
theorem mapMExc_ok_of_forall {α β : Type} (f : α → Except Unit β) (l : List α)
    (h : ∀ x ∈ l, ∃ y, f x = .ok y) :
    ∃ ys, mapMExc f l = .ok ys ∧ ys.length = l.length := by
  induction l with
  | nil => exact ⟨[], rfl, rfl⟩
  | cons x xs ih =>
      obtain ⟨y, hy⟩ := h x (by simp)
      obtain ⟨ys, hys, hlen⟩ := ih (fun a ha => h a (by simp [ha]))
      refine ⟨y :: ys, ?_, by simp [hlen]⟩
      simp only [mapMExc, hy, hys]
      rfl

/-- A successful `mapMExc` preserves the length. -/
theorem mapMExc_length {α β : Type} (f : α → Except Unit β) (l : List α)
    (ys : List β) (h : mapMExc f l = .ok ys) : ys.length = l.length := by
  induction l generalizing ys with
  | nil =>
      simp only [mapMExc] at h
      cases h
      rfl
  | cons x xs ih =>
      simp only [mapMExc] at h
      cases hx : f x with
      | error e => rw [hx] at h; cases h
      | ok y =>
          rw [hx] at h
          cases hxs : mapMExc f xs with
          | error e => rw [hxs] at h; cases h
          | ok zs =>
              rw [hxs] at h
              cases h
              simp [ih zs hxs]

/-- Every element of a successful `mapMExc` output is the image of some
input element. -/
theorem mapMExc_mem {α β : Type} (f : α → Except Unit β) (l : List α)
    (ys : List β) (h : mapMExc f l = .ok ys) :
    ∀ y ∈ ys, ∃ x ∈ l, f x = .ok y := by
  induction l generalizing ys with
  | nil =>
      simp only [mapMExc] at h
      cases h
      intro y hy
      cases hy
  | cons x xs ih =>
      simp only [mapMExc] at h
      cases hx : f x with
      | error e => rw [hx] at h; cases h
      | ok y =>
          rw [hx] at h
          cases hxs : mapMExc f xs with
          | error e => rw [hxs] at h; cases h
          | ok zs =>
              rw [hxs] at h
              cases h
              intro b hb
              rcases List.mem_cons.mp hb with hb | hb
              · exact ⟨x, by simp, by rw [hx, hb]⟩
              · obtain ⟨a, ha, hfa⟩ := ih zs hxs b hb
                exact ⟨a, by simp [ha], hfa⟩

/-- An occurrence in a suffix is an occurrence in the whole list. -/
theorem listInfixOf_append (pat s₁ s₂ : List Char)
    (h : listInfixOf pat s₂ = true) : listInfixOf pat (s₁ ++ s₂) = true := by
  induction s₁ with
  | nil => simpa using h
  | cons c cs ih => simp [listInfixOf, ih]

/-- `containsStr` is preserved by prepending text. -/
theorem containsStr_append (s₁ s₂ pat : String)
    (h : containsStr s₂ pat = true) : containsStr (s₁ ++ s₂) pat = true := by
  unfold containsStr at h ⊢
  have : (s₁ ++ s₂).toList = s₁.toList ++ s₂.toList := String.data_append ..
  rw [this]
  exact listInfixOf_append _ _ _ h

/-- A truthy optional string is a non-empty string. -/
theorem strTruthy_iff (o : Option String) :
    strTruthy o = true ↔ ∃ s, o = some s ∧ s ≠ "" := by
  cases o with
  | none => simp [strTruthy]
  | some s => simp [strTruthy]

/-- Membership in the first filter of `mapVideos`: a kept item occurs in
the input (non-`null`) and has a truthy `id`. -/
theorem keptItems_mem (items : List (Option RawItem)) (it : RawItem)
    (h : it ∈ keptItems items) : some it ∈ items ∧ strTruthy it.id = true := by
  unfold keptItems at h
  obtain ⟨o, ho, hmap⟩ := List.mem_filterMap.mp h
  cases o with
  | none => cases hmap
  | some x =>
      by_cases hx : strTruthy x.id
      · simp only [hx, if_pos] at hmap
        cases hmap
        exact ⟨ho, hx⟩
      · simp [hx] at hmap

/-- The first filter of `mapVideos` never lengthens the sequence. -/
theorem keptItems_length_le (items : List (Option RawItem)) :
    (keptItems items).length ≤ items.length :=
  List.length_filterMap_le _ _

/-- The fields of a video successfully produced for one raw item. -/
theorem mapVideoItem_fields (it : RawItem) (now : Int) (v : Video)
    (h : mapVideoItem it now = .ok v) :
    v.id = it.id ∧ v.likes = orInt it.diggCount 0 ∧
    v.comments = orInt it.commentCount 0 ∧ v.shares = orInt it.shareCount 0 ∧
    v.plays = orInt it.playCount 0 ∧ v.createdAt = orInt it.createTime now := by
  unfold mapVideoItem at h
  cases hx : extractHashtags it.hashtags with
  | error e => rw [hx] at h; cases h
  | ok tags =>
      rw [hx] at h
      cases h
      exact ⟨rfl, rfl, rfl, rfl, rfl, rfl⟩

/-- The shape of a raw item's `hashtags` field on which the source's
extraction cannot throw: nullish, or an array of (possibly name-less)
objects. -/
def tagsWellFormed : Option HtagsVal → Prop
  | none => True
  | some (.arr es) => ∀ e ∈ es, e ≠ HtagEntry.jnull
  | some .nonArray => False

instance (o : Option HtagsVal) : Decidable (tagsWellFormed o) := by
  unfold tagsWellFormed
  cases o with
  | none => infer_instance
  | some v => cases v <;> infer_instance

/-- Hashtag extraction succeeds exactly on well-formed `hashtags` fields. -/
theorem extractHashtags_ok (o : Option HtagsVal) (h : tagsWellFormed o) :
    ∃ tags, extractHashtags o = .ok tags := by
  cases o with
  | none => exact ⟨[], rfl⟩
  | some v =>
      cases v with
      | nonArray => cases h
      | arr es =>
          obtain ⟨names, hns, -⟩ :=
            mapMExc_ok_of_forall
              (fun e =>
                match e with
                | .jnull => (.error () : Except Unit (Option String))
                | .obj name => .ok name) es
              (fun e he => by
                cases e with
                | jnull => exact absurd rfl (h HtagEntry.jnull he)
                | obj name => exact ⟨name, rfl⟩)
          simp only [extractHashtags, hns]
          exact ⟨_, rfl⟩

/-- Mapping one raw item succeeds when its `hashtags` field is
well-formed. -/
theorem mapVideoItem_ok (it : RawItem) (now : Int)
    (h : tagsWellFormed it.hashtags) : ∃ v, mapVideoItem it now = .ok v := by
  obtain ⟨tags, htags⟩ := extractHashtags_ok it.hashtags h
  unfold mapVideoItem
  rw [htags]
  exact ⟨_, rfl⟩

/-- `mapMExc` only depends on the callback's values on the list. -/
theorem mapMExc_congr {α β : Type} (f g : α → Except Unit β) (l : List α)
    (h : ∀ x ∈ l, f x = g x) : mapMExc f l = mapMExc g l := by
  induction l with
  | nil => rfl
  | cons x xs ih =>
      simp only [mapMExc, h x (by simp), ih (fun a ha => h a (by simp [ha]))]

/-- Mapping one raw item does not depend on the clock when the item has a
truthy `createTime`. -/
theorem mapVideoItem_clock_indep (it : RawItem) (now₁ now₂ : Int)
    (h : intTruthy it.createTime = true) :
    mapVideoItem it now₁ = mapVideoItem it now₂ := by
  cases hct : it.createTime with
  | none => simp [intTruthy, hct] at h
  | some n =>
      have hn : ¬n = 0 := by simpa [intTruthy, hct] using h
      unfold mapVideoItem
      cases hx : extractHashtags it.hashtags with
      | error e => rfl
      | ok tags => simp only [orInt, hct, if_neg hn]

/-- `x || 0` is non-negative when the raw value is non-negative or
absent. -/
theorem orInt_zero_nonneg (o : Option Int) (h : ∀ n, o = some n → 0 ≤ n) :
    0 ≤ orInt o 0 := by
  cases o with
  | none => simp [orInt]
  | some n =>
      simp only [orInt]
      split
      · exact le_refl 0
      · exact h n rfl

/-! Concrete raw items used by the scenario and counterexample theorems. -/

/-- The raw item `{id:"123", authorMeta:{name:"alice"}, diggCount:50}`. -/
def c8RawItem : RawItem :=
  { id := some "123", authorMeta := some { name := some "alice" },
    diggCount := some 50 }

/-- The normalized video `mapVideos` produces for `c8RawItem` at clock
reading `now`. -/
def c8Video (now : Int) : Video :=
  { id := some "123"
    creator := { username := "alice", avatar := placeholderAvatar }
    description := "No description available"
    soundtrack := "No sound information"
    likes := 50
    comments := 0
    shares := 0
    plays := 0
    hashtags := []
    videoUrl := "https://www.tiktok.com/@alice/video/123"
    createdAt := now }

/-- A raw item with an id and no `createTime`. -/
def noTimeRawItem : RawItem := { id := some "1" }

/-- A raw item with an id and a negative `diggCount`. -/
def negCountRawItem : RawItem := { id := some "1", diggCount := some (-5) }

/-- A raw item with an id and a non-array `hashtags` field. -/
def badTagsRawItem : RawItem := { id := some "1", hashtags := some .nonArray }

/-- C8: `normalizeVideos` (`mapVideos`) on the single raw item
`{id:"123", authorMeta:{name:"alice"}, diggCount:50}` yields exactly one
video with id `"123"`, creator username `"alice"`, the placeholder avatar,
likes 50, the zero default for comments/shares/plays, the default
description, and an empty hashtag list (its `createdAt` is the current
clock reading, its soundtrack and URL the documented defaults). -/
theorem C8_single_item_scenario (now : Int) :
    mapVideos (.arr [some c8RawItem]) now = .ok [c8Video now] := by
  rfl

/-- C5 counterexample: `mapVideos` read the ambient clock (`Date.now()`)
for an item lacking `createTime`, so two applications to the same raw
sequence at clock readings 0 and 1 yield different outputs — the claim's
"identical output, including for raw items that lack a createTime field"
is false on the code. -/
theorem C5_counterexample :
    mapVideos (.arr [some noTimeRawItem]) 0 ≠
      mapVideos (.arr [some noTimeRawItem]) 1 := by
  decide

/-- C5 amended: `mapVideos` is deterministic — independent of the clock —
on every raw sequence whose kept items (non-null, truthy id) all carry a
truthy `createTime`. -/
theorem C5_deterministic_with_createTime (items : List (Option RawItem))
    (now₁ now₂ : Int)
    (h : ∀ it : RawItem, some it ∈ items → strTruthy it.id = true →
      intTruthy it.createTime = true) :
    mapVideos (.arr items) now₁ = mapVideos (.arr items) now₂ := by
  have hcongr :
      mapMExc (fun it => mapVideoItem it now₁) (keptItems items) =
        mapMExc (fun it => mapVideoItem it now₂) (keptItems items) := by
    apply mapMExc_congr
    intro it hit
    obtain ⟨hmem, hid⟩ := keptItems_mem items it hit
    exact mapVideoItem_clock_indep it now₁ now₂ (h it hmem hid)
  simp only [mapVideos, hcongr]

/-- C5 witness: the amended determinism theorem applied to a concrete
one-item sequence whose item carries `createTime = 5`, at clock readings
0 and 1. -/
theorem C5_deterministic_with_createTime_witness :
    mapVideos (.arr [some { id := some "1", createTime := some 5 }]) 0 =
      mapVideos (.arr [some { id := some "1", createTime := some 5 }]) 1 :=
  C5_deterministic_with_createTime
    [some { id := some "1", createTime := some 5 }] 0 1
    (by intro it hmem hid
        simp only [List.mem_singleton, Option.some.injEq] at hmem
        subst hmem
        decide)

/-- C7 counterexample: the source maps `likes: item.diggCount || 0`, so a
raw `diggCount` of −5 passes through as a negative `likes` — the claim's
"non-negative ... for every value (including negative ...)" is false on
the code. -/
theorem C7_counterexample :
    mapVideos (.arr [some negCountRawItem]) 0 =
      .ok [{ id := some "1"
             creator := { username := "unknown", avatar := placeholderAvatar }
             description := "No description available"
             soundtrack := "No sound information"
             likes := -5
             comments := 0
             shares := 0
             plays := 0
             hashtags := []
             videoUrl := "https://www.tiktok.com/@undefined/video/1"
             createdAt := 0 }] ∧ (-5 : Int) < 0 := by
  decide

/-- C7 amended: each count field of an output video equals the raw counter
when that counter is truthy and 0 otherwise; in particular the counts are
non-negative whenever every present raw counter of the input items is
non-negative. -/
theorem C7_counts_nonneg_when_raw_nonneg (items : List (Option RawItem))
    (now : Int) (vs : List Video) (h : mapVideos (.arr items) now = .ok vs)
    (hn : ∀ it : RawItem, some it ∈ items →
      (∀ n, it.diggCount = some n → 0 ≤ n) ∧
      (∀ n, it.commentCount = some n → 0 ≤ n) ∧
      (∀ n, it.shareCount = some n → 0 ≤ n) ∧
      (∀ n, it.playCount = some n → 0 ≤ n)) :
    ∀ v ∈ vs, 0 ≤ v.likes ∧ 0 ≤ v.comments ∧ 0 ≤ v.shares ∧ 0 ≤ v.plays := by
  intro v hv
  simp only [mapVideos] at h
  cases hm : mapMExc (fun it => mapVideoItem it now) (keptItems items) with
  | error e => rw [hm] at h; cases h
  | ok mapped =>
      rw [hm] at h
      cases h
      have hvm : v ∈ mapped := (List.mem_filter.mp hv).1
      obtain ⟨it, hit, hok⟩ := mapMExc_mem _ _ _ hm v hvm
      obtain ⟨hmem, -⟩ := keptItems_mem items it hit
      obtain ⟨-, hlikes, hcomments, hshares, hplays, -⟩ :=
        mapVideoItem_fields it now v hok
      obtain ⟨h1, h2, h3, h4⟩ := hn it hmem
      exact ⟨hlikes ▸ orInt_zero_nonneg _ h1, hcomments ▸ orInt_zero_nonneg _ h2,
        hshares ▸ orInt_zero_nonneg _ h3, hplays ▸ orInt_zero_nonneg _ h4⟩

/-- C7 witness: the amended theorem applied to the concrete item
`{id:"123", authorMeta:{name:"alice"}, diggCount:50}`, whose counters are
non-negative. -/
theorem C7_counts_nonneg_witness :
    0 ≤ (c8Video 3).likes ∧ 0 ≤ (c8Video 3).comments ∧
    0 ≤ (c8Video 3).shares ∧ 0 ≤ (c8Video 3).plays :=
  C7_counts_nonneg_when_raw_nonneg [some c8RawItem] 3 [c8Video 3] (by decide)
    (by intro it hmem
        simp only [List.mem_singleton, Option.some.injEq] at hmem
        subst hmem
        refine ⟨?_, ?_, ?_, ?_⟩ <;>
          (intro n hcn
           simp [c8RawItem] at hcn
           try omega))
    (c8Video 3) (List.mem_singleton.mpr rfl)

/-- C3: for every input sequence of raw items, every video in a successful
`normalizeVideos` (`mapVideos`) output has a non-empty id; every output
video originates from a non-null input item with a truthy id (so an item
lacking an id contributes nothing); and the output is no longer than the
input. -/
theorem C3_id_invariant (items : List (Option RawItem)) (now : Int)
    (vs : List Video) (h : mapVideos (.arr items) now = .ok vs) :
    (∀ v ∈ vs, ∃ s, v.id = some s ∧ s ≠ "") ∧
    vs.length ≤ items.length ∧
    (∀ v ∈ vs, ∃ it : RawItem,
      some it ∈ items ∧ strTruthy it.id = true ∧ v.id = it.id) := by
  simp only [mapVideos] at h
  cases hm : mapMExc (fun it => mapVideoItem it now) (keptItems items) with
  | error e => rw [hm] at h; cases h
  | ok mapped =>
      rw [hm] at h
      cases h
      refine ⟨?_, ?_, ?_⟩
      · intro v hv
        exact (strTruthy_iff v.id).mp (List.mem_filter.mp hv).2
      · calc (mapped.filter (fun v => strTruthy v.id)).length
            ≤ mapped.length := List.length_filter_le _ _
          _ = (keptItems items).length := mapMExc_length _ _ _ hm
          _ ≤ items.length := keptItems_length_le items
      · intro v hv
        obtain ⟨it, hit, hok⟩ :=
          mapMExc_mem _ _ _ hm v (List.mem_filter.mp hv).1
        obtain ⟨hmem, hid⟩ := keptItems_mem items it hit
        obtain ⟨hvid, -⟩ := mapVideoItem_fields it now v hok
        exact ⟨it, hmem, hid, hvid⟩

/-- C3 witness: the invariant applied to the concrete one-item input
`[c8RawItem]`. -/
theorem C3_id_invariant_witness :
    (∀ v ∈ [c8Video 3], ∃ s, v.id = some s ∧ s ≠ "") ∧
    ([c8Video 3] : List Video).length ≤ ([some c8RawItem] : List (Option RawItem)).length ∧
    (∀ v ∈ [c8Video 3], ∃ it : RawItem,
      some it ∈ [some c8RawItem] ∧ strTruthy it.id = true ∧ v.id = it.id) :=
  C3_id_invariant [some c8RawItem] 3 [c8Video 3] (by decide)

/-- C4 counterexample: a raw item carrying an id together with a non-array
`hashtags` field makes `mapVideos` throw a `TypeError`
(`item.hashtags?.map` is applied to a value with no `.map`), so the claim
that `normalizeVideos` tolerates a non-array hashtags field without
raising is false on the code. -/
theorem C4_counterexample :
    mapVideos (.arr [some badTagsRawItem]) 0 = .error () := by
  decide

/-- C4 amended: `normalizeVideos` and `normalizeProfile` are total and
never raise for absent input, non-sequence input, and arbitrary missing or
extra fields, PROVIDED each *id-bearing* item's `hashtags` field is
nullish or an array of (possibly name-less) objects — the id filter runs
before the hashtags read, so items without an id never raise whatever
their `hashtags` holds; a non-array `hashtags` value or a null hashtag
entry on an id-bearing item raises a `TypeError`.  `normalizeProfile` is
total unconditionally. -/
theorem C4_total_on_wellformed_tags :
    (∀ now, mapVideos .absent now = .ok []) ∧
    (∀ now, mapVideos .notArray now = .ok []) ∧
    (∀ (items : List (Option RawItem)) (now : Int),
      (∀ it : RawItem, some it ∈ items → strTruthy it.id = true →
        tagsWellFormed it.hashtags) →
      ∃ vs, mapVideos (.arr items) now = .ok vs) ∧
    mapProfile none = none ∧
    (∀ am : AuthorMeta, ∃ p : Profile, mapProfile (some am) = some p) := by
  refine ⟨fun _ => rfl, fun _ => rfl, ?_, rfl, fun am => ⟨_, rfl⟩⟩
  intro items now h
  obtain ⟨vs, hvs, -⟩ :=
    mapMExc_ok_of_forall (fun it => mapVideoItem it now) (keptItems items)
      (fun it hit =>
        mapVideoItem_ok it now
          (h it (keptItems_mem items it hit).1 (keptItems_mem items it hit).2))
  simp only [mapVideos, hvs]
  exact ⟨_, rfl⟩

/-- C4 witness: the amended totality theorem applied to a two-item input:
the first item has no id and a malformed (non-array) `hashtags` field —
it is dropped before the hashtags read — and the second, id-bearing item's
`hashtags` is an array containing an object without a `name` and an object
with an empty name. -/
theorem C4_total_on_wellformed_tags_witness :
    ∃ vs,
      mapVideos
        (.arr [some { hashtags := some .nonArray },
               some { id := some "9",
                      hashtags := some (.arr [.obj none, .obj (some "")]) }]) 0 =
        .ok vs :=
  C4_total_on_wellformed_tags.2.2.1
    [some { hashtags := some .nonArray },
     some { id := some "9", hashtags := some (.arr [.obj none, .obj (some "")]) }] 0
    (by intro it hmem hid
        simp only [List.mem_cons, List.not_mem_nil, or_false,
          Option.some.injEq] at hmem
        rcases hmem with h | h <;> subst h
        · exact absurd hid (by decide)
        · simp [tagsWellFormed])

/-- C9: in both gateway revisions the configuration check precedes the
cache lookup — with an unconfigured credential (revision 1) or an invalid
`apiStatus` (revision 3) the call fails with the configuration-error
message, returns the cache unchanged, and never enters the upstream path,
whatever the cache contains (in particular when a fresh entry exists for
the supplied key). -/
theorem C9_config_check_precedes_cache :
    (∀ (token : Option String), tokenMissing token = true →
      ∀ (clientInit : Bool) (upstream : UpstreamOutcome) (now : Int)
        (key : Option String) (cache : Cache),
        runScraper ⟨token, clientInit⟩ upstream now key cache =
          ⟨.error "Apify API key not configured. Please set APIFY_API_KEY environment variable.",
            cache, false⟩) ∧
    (∀ (msg : String) (clientAvail : Bool) (upstream : UpstreamOutcome)
        (now : Int) (key username : Option String) (cache : Cache),
        runScraperEnhanced ⟨false, msg⟩ clientAvail upstream now key username cache =
          ⟨.error ("API configuration error: " ++ msg), cache, false⟩) := by
  constructor
  · intro token h clientInit upstream now key cache
    simp [runScraper, h]
  · intro msg clientAvail upstream now key username cache
    simp [runScraperEnhanced]

/-- C9 witness: the theorem applied with an unset token (revision 1) and
an invalid status (revision 3), against a cache holding a fresh entry for
the supplied key. -/
theorem C9_config_check_precedes_cache_witness :
    runScraper ⟨none, true⟩ (.success (some [some c8RawItem])) 0 (some "trending")
        [("trending", ⟨some [some c8RawItem], 0⟩)] =
      ⟨.error "Apify API key not configured. Please set APIFY_API_KEY environment variable.",
        [("trending", ⟨some [some c8RawItem], 0⟩)], false⟩ ∧
    runScraperEnhanced ⟨false, "API key not configured in environment variables"⟩ true
        (.success (some [some c8RawItem])) 0 (some "trending") none
        [("trending", ⟨some [some c8RawItem], 0⟩)] =
      ⟨.error "API configuration error: API key not configured in environment variables",
        [("trending", ⟨some [some c8RawItem], 0⟩)], false⟩ :=
  ⟨C9_config_check_precedes_cache.1 none (by decide) true _ 0 _ _,
   C9_config_check_precedes_cache.2 "API key not configured in environment variables"
     true _ 0 _ none _⟩

/-- C2: in both gateway revisions (with a usable configuration), a call
for cache key `k` while the stored entry's age is below
`CACHE_DURATION` returns the stored items with the cache unchanged and
without entering the upstream path, independently of the upstream outcome;
once the age is at least `CACHE_DURATION` the stored entry is not served
and the upstream path is entered. -/
theorem C2_cache_freshness (env : Env)
    (he1 : tokenMissing env.apifyToken = false)
    (he2 : env.clientInitialized = true)
    (status : ApiStatus) (hs : status.valid = true)
    (k : String) (cache : Cache) (entry : CacheEntry) (now : Int)
    (hget : cacheGet cache k = some entry) :
    (now - entry.timestamp < CACHE_DURATION →
      (∀ upstream, runScraper env upstream now (some k) cache =
        ⟨.ok entry.data, cache, false⟩) ∧
      (∀ upstream username,
        runScraperEnhanced status true upstream now (some k) username cache =
          ⟨.ok entry.data, cache, false⟩)) ∧
    (CACHE_DURATION ≤ now - entry.timestamp →
      (∀ upstream,
        (runScraper env upstream now (some k) cache).upstreamCalled = true) ∧
      (∀ upstream username,
        (runScraperEnhanced status true upstream now (some k) username
          cache).upstreamCalled = true)) := by
  constructor
  · intro hfr
    constructor
    · intro upstream
      simp [runScraper, he1, he2, hget, hfr]
    · intro upstream username
      simp [runScraperEnhanced, hs, hget, hfr]
  · intro hst
    have hnfr : ¬now - entry.timestamp < CACHE_DURATION := not_lt.mpr hst
    constructor
    · intro upstream
      cases upstream with
      | success items => simp [runScraper, he1, he2, hget, hnfr, fetchV1]
      | failure msg => simp [runScraper, he1, he2, hget, hnfr, fetchV1]
    · intro upstream username
      cases upstream with
      | success items =>
          cases items with
          | none => simp [runScraperEnhanced, hs, hget, hnfr, fetchEnhanced]
          | some l =>
              by_cases hl : l.length = 0 <;>
                simp [runScraperEnhanced, hs, hget, hnfr, fetchEnhanced, hl]
      | failure msg => simp [runScraperEnhanced, hs, hget, hnfr, fetchEnhanced]

/-- C2 witness: the freshness theorem applied to a concrete cache holding
an entry stored at time 0, read once at time 1 (fresh: served from the
cache even though the upstream outcome is a failure) and once at time
300000 = `CACHE_DURATION` (stale: the upstream path is entered). -/
theorem C2_cache_freshness_witness :
    runScraper ⟨some "apify_api_x", true⟩ (.failure "boom") 1 (some "k")
        [("k", ⟨some [some c8RawItem], 0⟩)] =
      ⟨.ok (some [some c8RawItem]), [("k", ⟨some [some c8RawItem], 0⟩)], false⟩ ∧
    (runScraper ⟨some "apify_api_x", true⟩ (.failure "boom") 300000 (some "k")
        [("k", ⟨some [some c8RawItem], 0⟩)]).upstreamCalled = true :=
  ⟨((C2_cache_freshness ⟨some "apify_api_x", true⟩ (by decide) rfl ⟨true, "ok"⟩ rfl
      "k" [("k", ⟨some [some c8RawItem], 0⟩)] ⟨some [some c8RawItem], 0⟩ 1
      (by decide)).1 (by decide)).1 (.failure "boom"),
   ((C2_cache_freshness ⟨some "apify_api_x", true⟩ (by decide) rfl ⟨true, "ok"⟩ rfl
      "k" [("k", ⟨some [some c8RawItem], 0⟩)] ⟨some [some c8RawItem], 0⟩ 300000
      (by decide)).2 (by decide)).1 (.failure "boom")⟩

/-- C1 counterexample: revision 1's `runScraper` (lines 43-97), called
with a configured environment, the cache key `"hashtag_ab"` and an empty
upstream item sequence, returns the empty sequence as a success AND
writes it into the cache — it neither fails nor leaves the cache entry
unwritten, so the claim is false for that revision of the gateway. -/
theorem C1_counterexample :
    runScraper ⟨some "apify_api_x", true⟩ (.success (some [])) 0
        (some "hashtag_ab") [] =
      ⟨.ok (some []), [("hashtag_ab", ⟨some [], 0⟩)], true⟩ := by
  decide

/-- C1 amended: for the enhanced gateway (revisions 2/3), a call with a
usable configuration and no fresh cache entry for the key, whose upstream
returns an *empty* item sequence, throws: with no username the surfaced
message wraps the not-found detail ("No content found for this search"),
with a (non-pathological) username the message carries that username.  An
*absent* item sequence also makes the call fail, but via the host
`TypeError` thrown when the log line reads `items.length` before the
validation, wrapped generically — never a not-found message.  In every
case the cache is returned unchanged — the entry is left unwritten.
Revision 1 instead returns the empty sequence as a success and caches
it. -/
theorem C1_enhanced_empty_fails (status : ApiStatus) (hv : status.valid = true)
    (now : Int) (k : String) (cache : Cache)
    (hmiss : ∀ e, cacheGet cache k = some e →
      CACHE_DURATION ≤ now - e.timestamp) :
    (runScraperEnhanced status true (.success (some [])) now (some k) none cache =
      ⟨.error "Failed to fetch data: No content found for this search. Try a different query.",
        cache, true⟩) ∧
    (∀ u : String, u ≠ "" →
      containsStr (emptyItemsMsg (some u)) "invalid token" = false →
      containsStr (emptyItemsMsg (some u)) "authentication" = false →
      containsStr (emptyItemsMsg (some u)) "unauthorized" = false →
      containsStr (emptyItemsMsg (some u)) "rate limit" = false →
      runScraperEnhanced status true (.success (some [])) now (some k) (some u) cache =
        ⟨.error ("User @" ++ u ++ " not found. Please check the username and try again."),
          cache, true⟩) ∧
    (∀ username : Option String,
      runScraperEnhanced status true (.success none) now (some k) username cache =
        ⟨.error ("Failed to fetch data: " ++ undefinedLengthTypeErrorMsg),
          cache, true⟩) := by
  have hred : ∀ (items : Option (List (Option RawItem)))
      (username : Option String),
      runScraperEnhanced status true (.success items) now (some k) username cache =
        fetchEnhanced (.success items) now (some k) username cache := by
    intro items username
    cases hc : cacheGet cache k with
    | none => simp [runScraperEnhanced, hv, hc]
    | some e =>
        have hn : ¬now - e.timestamp < CACHE_DURATION := not_lt.mpr (hmiss e hc)
        simp [runScraperEnhanced, hv, hc, hn]
  refine ⟨?_, ?_, ?_⟩
  · have hmsg : classifyEnhanced (emptyItemsMsg none) none =
        "Failed to fetch data: No content found for this search. Try a different query." := by
      decide
    rw [hred (some []) none]
    simp [fetchEnhanced, hmsg]
  · intro u hu h1 h2 h3 h4
    rw [hred (some []) (some u)]
    have hnf : containsStr (emptyItemsMsg (some u)) "not found" = true := by
      unfold emptyItemsMsg
      apply containsStr_append
      decide
    have hut : strTruthy (some u) = true := by simp [strTruthy, hu]
    simp [fetchEnhanced, classifyEnhanced, h1, h2, h3, h4, hnf, hut, jsShow]
  · intro username
    rw [hred none username]
    have h1 : containsStr undefinedLengthTypeErrorMsg "invalid token" = false := by decide
    have h2 : containsStr undefinedLengthTypeErrorMsg "authentication" = false := by decide
    have h3 : containsStr undefinedLengthTypeErrorMsg "unauthorized" = false := by decide
    have h4 : containsStr undefinedLengthTypeErrorMsg "rate limit" = false := by decide
    have h5 : containsStr undefinedLengthTypeErrorMsg "not found" = false := by decide
    simp [fetchEnhanced, classifyEnhanced, h1, h2, h3, h4, h5]

/-- C1 witness: the amended theorem applied at key `"hashtag_ab"` and an
empty cache: once with an empty upstream result and no username, once with
an empty result and the username `"alice"`, and once with an absent
result. -/
theorem C1_enhanced_empty_fails_witness :
    (runScraperEnhanced ⟨true, "ok"⟩ true (.success (some [])) 0
        (some "hashtag_ab") none [] =
      ⟨.error "Failed to fetch data: No content found for this search. Try a different query.",
        [], true⟩) ∧
    (runScraperEnhanced ⟨true, "ok"⟩ true (.success (some [])) 0
        (some "hashtag_ab") (some "alice") [] =
      ⟨.error "User @alice not found. Please check the username and try again.",
        [], true⟩) ∧
    (runScraperEnhanced ⟨true, "ok"⟩ true (.success none) 0
        (some "hashtag_ab") (some "alice") [] =
      ⟨.error "Failed to fetch data: Cannot read properties of undefined (reading 'length')",
        [], true⟩) :=
  have h := C1_enhanced_empty_fails ⟨true, "ok"⟩ rfl 0
    "hashtag_ab" [] (by intro e he; simp [cacheGet] at he)
  ⟨h.1, h.2.1 "alice" (by decide) (by decide) (by decide) (by decide) (by decide),
   h.2.2 (some "alice")⟩

/-- C6: a hashtag tag or profile username of length < 2, or a search query
whose trimmed text is empty, is rejected with the 400 validation response
before any cache access or upstream call: the route returns with the cache
unchanged and the gateway (`runScraper`) never invoked. -/
theorem C6_validation_precedes_gateway (env : Env) (upstream : UpstreamOutcome)
    (now : Int) (cache : Cache) :
    (∀ tag : String, tag.length < 2 →
      hashtagRoute env upstream now tag cache =
        ⟨.badRequest "Hashtag must be at least 2 characters", cache, false⟩) ∧
    (∀ u : String, u.length < 2 →
      profileRoute env upstream now u cache =
        ⟨.badRequest "Username must be at least 2 characters", cache, false⟩) ∧
    (∀ q : Option String, jsTrim (orStr q "") = "" →
      searchRoute env upstream now q cache =
        ⟨.badRequest "Search query is required", cache, false⟩) := by
  refine ⟨?_, ?_, ?_⟩
  · intro tag h
    unfold hashtagRoute
    rw [if_pos (Or.inr h)]
  · intro u h
    unfold profileRoute
    rw [if_pos (Or.inr h)]
  · intro q h
    unfold searchRoute
    rw [if_pos h]

/-- C6 witness: the validation theorem applied to the one-character tag
`"a"`, the one-character username `"x"`, and the absent search query. -/
theorem C6_validation_precedes_gateway_witness :
    hashtagRoute ⟨some "apify_api_x", true⟩ (.success (some [])) 0 "a" [] =
      ⟨.badRequest "Hashtag must be at least 2 characters", [], false⟩ ∧
    profileRoute ⟨some "apify_api_x", true⟩ (.success (some [])) 0 "x" [] =
      ⟨.badRequest "Username must be at least 2 characters", [], false⟩ ∧
    searchRoute ⟨some "apify_api_x", true⟩ (.success (some [])) 0 none [] =
      ⟨.badRequest "Search query is required", [], false⟩ :=
  ⟨(C6_validation_precedes_gateway ⟨some "apify_api_x", true⟩ (.success (some [])) 0 []).1
      "a" (by decide),
   (C6_validation_precedes_gateway ⟨some "apify_api_x", true⟩ (.success (some [])) 0 []).2.1
      "x" (by decide),
   (C6_validation_precedes_gateway ⟨some "apify_api_x", true⟩ (.success (some [])) 0 []).2.2
      none (by decide)⟩

/-- C10: when the gateway hands the profile route a non-empty item
sequence whose first entry is an item object, the profile component of the
success response is exactly `mapProfile` of that first item's
`authorMeta` — independent of any author metadata on later items — and it
is absent (`none`) whenever the first item lacks `authorMeta`. -/
theorem C10_profile_from_first_item (env : Env) (upstream : UpstreamOutcome)
    (now : Int) (u : String) (hu : 2 ≤ u.length) (cache : Cache)
    (it : RawItem) (rest : List (Option RawItem)) (c' : Cache) (b : Bool)
    (hgw : runScraper env upstream now (some ("profile_" ++ u)) cache =
      ⟨.ok (some (some it :: rest)), c', b⟩)
    (vids : List Video)
    (hmv : mapVideos (.arr (some it :: rest)) now = .ok vids) :
    profileRoute env upstream now u cache =
      ⟨.okProfile (mapProfile it.authorMeta) vids vids.length, c', true⟩ ∧
    (it.authorMeta = none → mapProfile it.authorMeta = none) := by
  constructor
  · have hval : ¬(u = "" ∨ u.length < 2) := by
      rintro (h | h)
      · rw [h] at hu; exact absurd hu (by decide)
      · omega
    unfold profileRoute
    rw [if_neg hval, hgw]
    simp only [hmv]
  · intro h
    rw [h]
    rfl

/-- A second raw item, with author metadata different from `c8RawItem`. -/
def bobRawItem : RawItem :=
  { id := some "7", authorMeta := some { name := some "bob" } }

/-- The normalized video `mapVideos` produces for `bobRawItem` at clock
reading `now`. -/
def bobVideo (now : Int) : Video :=
  { id := some "7"
    creator := { username := "bob", avatar := placeholderAvatar }
    description := "No description available"
    soundtrack := "No sound information"
    likes := 0
    comments := 0
    shares := 0
    plays := 0
    hashtags := []
    videoUrl := "https://www.tiktok.com/@bob/video/7"
    createdAt := now }

/-- C10 witness: the theorem applied to a concrete two-item sequence whose
first item carries `authorMeta {name: "alice"}` and whose second item
carries different author metadata (`bob`): the profile comes from the
first item. -/
theorem C10_profile_from_first_item_witness :
    profileRoute ⟨some "apify_api_x", true⟩
        (.success (some [some c8RawItem, some bobRawItem])) 0 "alice" [] =
      ⟨.okProfile (mapProfile c8RawItem.authorMeta) [c8Video 0, bobVideo 0] 2,
        [("profile_alice", ⟨some [some c8RawItem, some bobRawItem], 0⟩)],
        true⟩ :=
  (C10_profile_from_first_item ⟨some "apify_api_x", true⟩
      (.success (some [some c8RawItem, some bobRawItem])) 0 "alice" (by decide)
      [] c8RawItem [some bobRawItem]
      [("profile_alice", ⟨some [some c8RawItem, some bobRawItem], 0⟩)] true
      (by decide) [c8Video 0, bobVideo 0] (by decide)).1

end TokTok
